import Mathlib

/-!
Verification of the exoskeleton pose-viewer core
(`src/components/ExoskeletonCanvas.tsx`, `src/hooks/usePoseDetector.ts`,
`src/components/ControlPanel.tsx`).

The engine state, the landmark mapper, the default pose, the pose smoother
step, the capture and disposal operations are embedded as pure functions
over rational (resp. real, for the camera controls) coordinates, following
the TypeScript source line by line.
-/

namespace Exoskeleton

/-- A raw landmark as delivered by the external pose detector
(`src/types.ts`, `PoseLandmark`; the optional visibility field is unused
by the mapper). -/
structure PoseLandmark where
  x : ℚ
  y : ℚ
  z : ℚ
deriving DecidableEq, Repr

/-- A 3-component render-space position (`THREE.Vector3`). -/
structure Vec3 where
  x : ℚ
  y : ℚ
  z : ℚ
deriving DecidableEq, Repr

/-- `THREE.Vector3.lerp`: `this.x += (v.x - this.x) * alpha`, per component. -/
def Vec3.lerp (a b : Vec3) (alpha : ℚ) : Vec3 :=
  ⟨a.x + (b.x - a.x) * alpha, a.y + (b.y - a.y) * alpha, a.z + (b.z - a.z) * alpha⟩

/-- `POSE_SCALE = 2.5` (ExoskeletonCanvas.tsx line 5). -/
def POSE_SCALE : ℚ := 5 / 2

/-- `toVec3` inside `updatePose`:
`new THREE.Vector3(p.x * POSE_SCALE, -p.y * POSE_SCALE, -p.z * POSE_SCALE)`. -/
def toVec3 (p : PoseLandmark) : Vec3 :=
  ⟨p.x * POSE_SCALE, -p.y * POSE_SCALE, -p.z * POSE_SCALE⟩

/-- The `LandmarkMap` index table (ExoskeletonCanvas.tsx lines 7-11). -/
def LandmarkMap.NOSE : ℕ := 0
def LandmarkMap.LEFT_SHOULDER : ℕ := 11
def LandmarkMap.RIGHT_SHOULDER : ℕ := 12
def LandmarkMap.LEFT_ELBOW : ℕ := 13
def LandmarkMap.RIGHT_ELBOW : ℕ := 14
def LandmarkMap.LEFT_WRIST : ℕ := 15
def LandmarkMap.RIGHT_WRIST : ℕ := 16
def LandmarkMap.LEFT_HIP : ℕ := 23
def LandmarkMap.RIGHT_HIP : ℕ := 24
def LandmarkMap.LEFT_KNEE : ℕ := 25
def LandmarkMap.RIGHT_KNEE : ℕ := 26
def LandmarkMap.LEFT_ANKLE : ℕ := 27
def LandmarkMap.RIGHT_ANKLE : ℕ := 28

/-- The named keypoint set (`newPoints` / `currentPoints` / `targetPoints`):
a total mapping from the fixed closed name set to positions. -/
structure Pose where
  head : Vec3
  neck : Vec3
  shoulderL : Vec3
  shoulderR : Vec3
  hipL : Vec3
  hipR : Vec3
  hipCenter : Vec3
  elbowL : Vec3
  elbowR : Vec3
  wristL : Vec3
  wristR : Vec3
  kneeL : Vec3
  kneeR : Vec3
  ankleL : Vec3
  ankleR : Vec3
deriving DecidableEq, Repr

/-- The landmark-to-keypoint mapping body of `updatePose` (lines 47-58).
JavaScript indexing past the end of the array yields `undefined` and
`toVec3` then throws; this is modelled by `Option` bind on `List.get?`. -/
def mapLandmarks (landmarks : List PoseLandmark) : Option Pose := do
  let nose ← landmarks.get? LandmarkMap.NOSE
  let ls ← landmarks.get? LandmarkMap.LEFT_SHOULDER
  let rs ← landmarks.get? LandmarkMap.RIGHT_SHOULDER
  let lh ← landmarks.get? LandmarkMap.LEFT_HIP
  let rh ← landmarks.get? LandmarkMap.RIGHT_HIP
  let le ← landmarks.get? LandmarkMap.LEFT_ELBOW
  let re ← landmarks.get? LandmarkMap.RIGHT_ELBOW
  let lw ← landmarks.get? LandmarkMap.LEFT_WRIST
  let rw ← landmarks.get? LandmarkMap.RIGHT_WRIST
  let lk ← landmarks.get? LandmarkMap.LEFT_KNEE
  let rk ← landmarks.get? LandmarkMap.RIGHT_KNEE
  let la ← landmarks.get? LandmarkMap.LEFT_ANKLE
  let ra ← landmarks.get? LandmarkMap.RIGHT_ANKLE
  pure {
    head := toVec3 nose
    neck := (toVec3 ls).lerp (toVec3 rs) (1/2)
    shoulderL := toVec3 ls
    shoulderR := toVec3 rs
    hipL := toVec3 lh
    hipR := toVec3 rh
    hipCenter := (toVec3 lh).lerp (toVec3 rh) (1/2)
    elbowL := toVec3 le
    elbowR := toVec3 re
    wristL := toVec3 lw
    wristR := toVec3 rw
    kneeL := toVec3 lk
    kneeR := toVec3 rk
    ankleL := toVec3 la
    ankleR := toVec3 ra }

/-- `createDefaultPose` (ExoskeletonCanvas.tsx lines 222-239). -/
def createDefaultPose : Pose where
  head := ⟨0, 4/5, 0⟩
  neck := ⟨0, 3/5, 0⟩
  shoulderL := ⟨-(2/5), 3/5, 0⟩
  shoulderR := ⟨2/5, 3/5, 0⟩
  hipL := ⟨-(1/4), -(1/10), 0⟩
  hipR := ⟨1/4, -(1/10), 0⟩
  hipCenter := ⟨0, -(1/10), 0⟩
  elbowL := ⟨-(4/5), 1/5, 0⟩
  elbowR := ⟨4/5, 1/5, 0⟩
  wristL := ⟨-(6/5), -(1/5), 0⟩
  wristR := ⟨6/5, -(1/5), 0⟩
  kneeL := ⟨-(1/4), -(3/5), 0⟩
  kneeR := ⟨1/4, -(3/5), 0⟩
  ankleL := ⟨-(1/4), -(11/10), 0⟩
  ankleR := ⟨1/4, -(11/10), 0⟩

/-- One object in the scene graph, abstracted to what the disposal
traversal looks at: whether it carries a geometry, and how many materials
it carries (an array of materials counts each one). -/
structure SceneObject where
  hasGeometry : Bool
  materialCount : ℕ
deriving DecidableEq, Repr

/-- The scene, abstracted to its traversable object list. -/
structure Scene where
  objects : List SceneObject
deriving DecidableEq, Repr

/-- The renderer's observable state: clear color, clear alpha, and a count
of frames rendered so far. -/
structure Renderer where
  clearColor : ℕ
  clearAlpha : ℚ
  framesRendered : ℕ
deriving DecidableEq, Repr

/-- The camera, abstracted to its aspect ratio. -/
structure Camera where
  aspect : ℚ
deriving DecidableEq, Repr

/-- The mutable `threeState.current` ref of `ExoskeletonCanvas`
(lines 25-35): every field optional, `{}` when torn down. -/
structure ThreeState where
  renderer : Option Renderer
  scene : Option Scene
  camera : Option Camera
  animationFrameId : Option ℕ
  currentPoints : Option Pose
  targetPoints : Option Pose
deriving DecidableEq, Repr

/-- The empty ref value `{}`. -/
def emptyThreeState : ThreeState :=
  ⟨none, none, none, none, none, none⟩

/-- `updatePose` (ExoskeletonCanvas.tsx lines 42-63).  Returns
`Except Unit` because `toVec3(landmarks[i])` throws a `TypeError` when the
index is out of range (`landmarks[i]` is `undefined`). -/
def updatePose (landmarks : Option (List PoseLandmark)) (st : ThreeState) :
    Except Unit ThreeState :=
  match st.targetPoints with
  | none => .ok st
  | some _ =>
    match landmarks with
    | some l =>
      if l.length > 0 then
        match mapLandmarks l with
        | some newPoints => .ok { st with targetPoints := some newPoints }
        | none => .error ()
      else .ok { st with targetPoints := some createDefaultPose }
    | none => .ok { st with targetPoints := some createDefaultPose }

/-- The landmark filter of `usePoseDetector`'s result handler
(usePoseDetector.ts lines 83-91): what is passed to the `onResults`
callback — the sample itself when it has exactly 33 entries, `null`
otherwise. -/
def onResultsForward (poseWorldLandmarks : Option (List PoseLandmark)) :
    Option (List PoseLandmark) :=
  match poseWorldLandmarks with
  | some l => if l.length = 33 then some l else none
  | none => none

/-- The three camera/transform controls held in `controlsRef`
(`{ rotationY, rotationX, zoom }`).  Real-valued, because the host UI
slider bounds involve `π`. -/
structure Controls where
  rotationY : ℝ
  rotationX : ℝ
  zoom : ℝ

/-- The full component state visible to the imperative handle: the three.js
state ref plus the controls ref. -/
structure CanvasState where
  three : ThreeState
  controls : Controls

/-- `updateControls` (ExoskeletonCanvas.tsx lines 39-41):
`controlsRef.current = controls`. -/
def updateControls (controls : Controls) (st : CanvasState) : CanvasState :=
  { st with controls := controls }

/-- The per-keypoint smoothing step of the `animate` loop
(lines 137-144): when `current` differs from `target` (exact vector
equality check `current.equals(target)`), `current.lerp(target, 0.08)`;
otherwise the keypoint is left untouched. -/
def stepKey (current target : Vec3) : Vec3 :=
  if current = target then current else current.lerp target (2/25)

/-- One tick of the pose-smoothing loop over the whole keypoint set:
`stepKey` applied to every one of the fifteen named keypoints. -/
def advance (cur tar : Pose) : Pose where
  head := stepKey cur.head tar.head
  neck := stepKey cur.neck tar.neck
  shoulderL := stepKey cur.shoulderL tar.shoulderL
  shoulderR := stepKey cur.shoulderR tar.shoulderR
  hipL := stepKey cur.hipL tar.hipL
  hipR := stepKey cur.hipR tar.hipR
  hipCenter := stepKey cur.hipCenter tar.hipCenter
  elbowL := stepKey cur.elbowL tar.elbowL
  elbowR := stepKey cur.elbowR tar.elbowR
  wristL := stepKey cur.wristL tar.wristL
  wristR := stepKey cur.wristR tar.wristR
  kneeL := stepKey cur.kneeL tar.kneeL
  kneeR := stepKey cur.kneeR tar.kneeR
  ankleL := stepKey cur.ankleL tar.ankleL
  ankleR := stepKey cur.ankleR tar.ankleR

/-- `n` ticks of the pose-smoothing loop against a fixed target. -/
def advanceN (n : ℕ) (cur tar : Pose) : Pose :=
  (fun c => advance c tar)^[n] cur

/-- The per-body-part connection lists built by `animate`
(lines 147-153), in `LineSegments` convention: consecutive pairs of the
list are the segment endpoints. -/
structure Connections where
  torso : List Vec3
  armL : List Vec3
  armR : List Vec3
  legL : List Vec3
  legR : List Vec3
deriving DecidableEq, Repr

/-- The `connections` object of the `animate` loop, evaluated at a
keypoint set. -/
def connections (p : Pose) : Connections where
  torso := [p.head, p.neck, p.neck, p.hipCenter]
  armL := [p.neck, p.shoulderL, p.shoulderL, p.elbowL, p.elbowL, p.wristL]
  armR := [p.neck, p.shoulderR, p.shoulderR, p.elbowR, p.elbowR, p.wristR]
  legL := [p.hipCenter, p.hipL, p.hipL, p.kneeL, p.kneeL, p.ankleL]
  legR := [p.hipCenter, p.hipR, p.hipR, p.kneeR, p.kneeR, p.ankleR]

/-- A flat `LineSegments` vertex list regrouped as (start, end) segment
pairs; a trailing unpaired vertex is ignored, as the renderer ignores it. -/
def segmentPairs : List Vec3 → List (Vec3 × Vec3)
  | a :: b :: rest => (a, b) :: segmentPairs rest
  | _ => []

/-- `renderer.render(scene, camera)`, abstracted: one more frame is drawn
with the renderer's current settings. -/
def render (r : Renderer) : Renderer :=
  { r with framesRendered := r.framesRendered + 1 }

/-- What `toDataURL` captures: the scene content together with the clear
color and alpha in force at capture time. -/
structure Snapshot where
  sceneObjects : List SceneObject
  clearColor : ℕ
  clearAlpha : ℚ
deriving DecidableEq, Repr

/-- `captureCanvas` (ExoskeletonCanvas.tsx lines 64-81): bail out with
`null` unless renderer, scene and camera all exist; save the clear
color/alpha, force an opaque black background, render, capture, restore
the saved background. -/
def captureCanvas (st : ThreeState) : Option Snapshot × ThreeState :=
  match st.renderer, st.scene, st.camera with
  | some r, some scene, some _camera =>
    let originalClearColor := r.clearColor
    let originalClearAlpha := r.clearAlpha
    let forced := render { r with clearColor := 0, clearAlpha := 1 }
    let dataURL : Snapshot := ⟨scene.objects, forced.clearColor, forced.clearAlpha⟩
    let restored := { forced with
      clearColor := originalClearColor, clearAlpha := originalClearAlpha }
    (some dataURL, { st with renderer := some restored })
  | _, _, _ => (none, st)

/-- The observable release actions performed by the effect cleanup. -/
inductive DisposeAction where
  | cancelFrame (id : ℕ)
  | removeResizeListener
  | disposeGeometry
  | disposeMaterial
  | clearScene
  | disposeRenderer
  | removeDomElement
deriving DecidableEq, Repr

/-- The release actions the cleanup's `scene.traverse` callback performs
on one object (lines 190-200): dispose its geometry if it has one, then
dispose its material(s). -/
def disposeObjectActions (o : SceneObject) : List DisposeAction :=
  (if o.hasGeometry then [DisposeAction.disposeGeometry] else []) ++
    List.replicate o.materialCount DisposeAction.disposeMaterial

/-- The `useEffect` cleanup (ExoskeletonCanvas.tsx lines 181-211):
cancel the scheduled frame if any, remove the resize listener, traverse
and dispose the scene if any, dispose the renderer and detach its DOM
element if any, and reset the ref to `{}`.  Returns the new state and the
list of release actions performed, in order. -/
def dispose (st : ThreeState) : ThreeState × List DisposeAction :=
  let frameActions := match st.animationFrameId with
    | some fid => [DisposeAction.cancelFrame fid]
    | none => []
  let sceneActions := match st.scene with
    | some scene =>
      (scene.objects.map disposeObjectActions).flatten ++ [DisposeAction.clearScene]
    | none => []
  let rendererActions := match st.renderer with
    | some _ => [DisposeAction.disposeRenderer, DisposeAction.removeDomElement]
    | none => []
  (emptyThreeState,
    frameActions ++ [DisposeAction.removeResizeListener] ++ sceneActions ++
      rendererActions)

/-- Modelled from the spec: the spec's `midpoint` of two positions —
linear interpolation at factor 0.5, i.e. the componentwise average —
stated independently of the source's `lerp`, for comparison with it. -/
def midpointV (a b : Vec3) : Vec3 :=
  ⟨(a.x + b.x) / 2, (a.y + b.y) / 2, (a.z + b.z) / 2⟩

/-- A dummy landmark used only as the `getD` fallback in statements about
in-range indices. -/
def lmDefault : PoseLandmark :=
  ⟨0, 0, 0⟩

/-- `c` lies (inclusively) between `a` and `b`. -/
def betweenQ (a b c : ℚ) : Prop :=
  min a b ≤ c ∧ c ≤ max a b

/-- Every component of `c'` lies between the corresponding components of
the previous value `c` and the target `t`. -/
def vecBetween (c t c' : Vec3) : Prop :=
  betweenQ c.x t.x c'.x ∧ betweenQ c.y t.y c'.y ∧ betweenQ c.z t.z c'.z

/-- Componentwise, `c'` is no farther from the target `t` than `c` was. -/
def vecCloser (c t c' : Vec3) : Prop :=
  |t.x - c'.x| ≤ |t.x - c.x| ∧ |t.y - c'.y| ≤ |t.y - c.y| ∧
    |t.z - c'.z| ≤ |t.z - c.z|

/-- The per-keypoint contract of one smoothing tick: the new value `c'`
stays between the old value and the target, never gets farther from the
target, and an already-converged keypoint is left exactly unchanged. -/
def keypointStepOK (c t c' : Vec3) : Prop :=
  vecBetween c t c' ∧ vecCloser c t c' ∧ (c = t → c' = c)

/-- Componentwise closeness of two positions within tolerance `eps`. -/
def vclose (eps : ℚ) (a b : Vec3) : Prop :=
  |a.x - b.x| ≤ eps ∧ |a.y - b.y| ≤ eps ∧ |a.z - b.z| ≤ eps

/-- Closeness of two keypoint sets: every one of the fifteen named
keypoints is componentwise within `eps`. -/
def pclose (eps : ℚ) (p q : Pose) : Prop :=
  vclose eps p.head q.head ∧ vclose eps p.neck q.neck ∧
    vclose eps p.shoulderL q.shoulderL ∧ vclose eps p.shoulderR q.shoulderR ∧
    vclose eps p.hipL q.hipL ∧ vclose eps p.hipR q.hipR ∧
    vclose eps p.hipCenter q.hipCenter ∧ vclose eps p.elbowL q.elbowL ∧
    vclose eps p.elbowR q.elbowR ∧ vclose eps p.wristL q.wristL ∧
    vclose eps p.wristR q.wristR ∧ vclose eps p.kneeL q.kneeL ∧
    vclose eps p.kneeR q.kneeR ∧ vclose eps p.ankleL q.ankleL ∧
    vclose eps p.ankleR q.ankleR

/-- Closed form of `n` scalar lerp steps at factor 0.08 toward a fixed
target: the residual shrinks by the factor `1 - 0.08 = 23/25` each tick. -/
def lerpIter (n : ℕ) (c t : ℚ) : ℚ :=
  t + (23/25) ^ n * (c - t)

/-- Closed form of `n` keypoint smoothing steps, componentwise. -/
def vecIter (n : ℕ) (c t : Vec3) : Vec3 :=
  ⟨lerpIter n c.x t.x, lerpIter n c.y t.y, lerpIter n c.z t.z⟩

/-! Concrete states used as sample points in the theorems below. -/

/-- A representative initialized engine state (after the mount effect has
run: renderer, scene, camera, a scheduled frame, and both keypoint sets
present). -/
def activeState : ThreeState where
  renderer := some ⟨0, 0, 0⟩
  scene := some ⟨[⟨true, 1⟩, ⟨true, 1⟩, ⟨false, 0⟩]⟩
  camera := some ⟨1⟩
  animationFrameId := some 7
  currentPoints := some createDefaultPose
  targetPoints := some createDefaultPose

/-- The controls at their `useState` initial values
(`rotationY = 0, rotationX = 0, zoom = 1`). -/
def initialControls : Controls :=
  ⟨0, 0, 1⟩

/-- A canvas state before the mount effect has run, with initial controls. -/
def initialCanvasState : CanvasState :=
  ⟨emptyThreeState, initialControls⟩

/-- A non-empty landmark sample of length 34 ≠ 33: every entry `(1, 1, 1)`. -/
def badSample : List PoseLandmark :=
  List.replicate 34 ⟨1, 1, 1⟩

/-- A valid landmark sample of length exactly 33. -/
def sample33 : List PoseLandmark :=
  List.replicate 33 ⟨1, 2, 3⟩

/-- A starting keypoint configuration very far from any target: the
default pose with the head moved to `x = 100000`. -/
def farStartPose : Pose :=
  { createDefaultPose with head := ⟨100000, 4/5, 0⟩ }

/-- The keypoint set `updatePose` builds from `badSample`: every used index
holds `(1, 1, 1)`, so every keypoint maps to `(2.5, -2.5, -2.5)`. -/
def mappedBadPose : Pose where
  head := ⟨5/2, -(5/2), -(5/2)⟩
  neck := ⟨5/2, -(5/2), -(5/2)⟩
  shoulderL := ⟨5/2, -(5/2), -(5/2)⟩
  shoulderR := ⟨5/2, -(5/2), -(5/2)⟩
  hipL := ⟨5/2, -(5/2), -(5/2)⟩
  hipR := ⟨5/2, -(5/2), -(5/2)⟩
  hipCenter := ⟨5/2, -(5/2), -(5/2)⟩
  elbowL := ⟨5/2, -(5/2), -(5/2)⟩
  elbowR := ⟨5/2, -(5/2), -(5/2)⟩
  wristL := ⟨5/2, -(5/2), -(5/2)⟩
  wristR := ⟨5/2, -(5/2), -(5/2)⟩
  kneeL := ⟨5/2, -(5/2), -(5/2)⟩
  kneeR := ⟨5/2, -(5/2), -(5/2)⟩
  ankleL := ⟨5/2, -(5/2), -(5/2)⟩
  ankleR := ⟨5/2, -(5/2), -(5/2)⟩

/-! Helper lemmas shared by several claims. -/

/-- In-range `get?` is `some` of the `getD` value, whatever the fallback. -/
lemma get?_eq_getD {α : Type} (l : List α) (d : α) (i : ℕ) (h : i < l.length) :
    l.get? i = some (l.getD i d) := by
  induction l generalizing i with
  | nil => simp at h
  | cons a t ih =>
    cases i with
    | zero => rfl
    | succ n => simpa using ih n (by simpa using h)

/-- Evaluation of the landmark mapper on any sample long enough for every
used index (all used indices are < 29): every bind succeeds and the result
is the keypoint set of the source's mapping table. -/
lemma mapLandmarks_of_length (l : List PoseLandmark) (h : 29 ≤ l.length) :
    mapLandmarks l = some {
      head := toVec3 (l.getD 0 lmDefault)
      neck := (toVec3 (l.getD 11 lmDefault)).lerp (toVec3 (l.getD 12 lmDefault)) (1/2)
      shoulderL := toVec3 (l.getD 11 lmDefault)
      shoulderR := toVec3 (l.getD 12 lmDefault)
      hipL := toVec3 (l.getD 23 lmDefault)
      hipR := toVec3 (l.getD 24 lmDefault)
      hipCenter := (toVec3 (l.getD 23 lmDefault)).lerp (toVec3 (l.getD 24 lmDefault)) (1/2)
      elbowL := toVec3 (l.getD 13 lmDefault)
      elbowR := toVec3 (l.getD 14 lmDefault)
      wristL := toVec3 (l.getD 15 lmDefault)
      wristR := toVec3 (l.getD 16 lmDefault)
      kneeL := toVec3 (l.getD 25 lmDefault)
      kneeR := toVec3 (l.getD 26 lmDefault)
      ankleL := toVec3 (l.getD 27 lmDefault)
      ankleR := toVec3 (l.getD 28 lmDefault) } := by
  rw [mapLandmarks]
  rw [show LandmarkMap.NOSE = 0 from rfl, show LandmarkMap.LEFT_SHOULDER = 11 from rfl,
    show LandmarkMap.RIGHT_SHOULDER = 12 from rfl, show LandmarkMap.LEFT_ELBOW = 13 from rfl,
    show LandmarkMap.RIGHT_ELBOW = 14 from rfl, show LandmarkMap.LEFT_WRIST = 15 from rfl,
    show LandmarkMap.RIGHT_WRIST = 16 from rfl, show LandmarkMap.LEFT_HIP = 23 from rfl,
    show LandmarkMap.RIGHT_HIP = 24 from rfl, show LandmarkMap.LEFT_KNEE = 25 from rfl,
    show LandmarkMap.RIGHT_KNEE = 26 from rfl, show LandmarkMap.LEFT_ANKLE = 27 from rfl,
    show LandmarkMap.RIGHT_ANKLE = 28 from rfl]
  rw [get?_eq_getD l lmDefault 0 (by omega), get?_eq_getD l lmDefault 11 (by omega),
    get?_eq_getD l lmDefault 12 (by omega), get?_eq_getD l lmDefault 13 (by omega),
    get?_eq_getD l lmDefault 14 (by omega), get?_eq_getD l lmDefault 15 (by omega),
    get?_eq_getD l lmDefault 16 (by omega), get?_eq_getD l lmDefault 23 (by omega),
    get?_eq_getD l lmDefault 24 (by omega), get?_eq_getD l lmDefault 25 (by omega),
    get?_eq_getD l lmDefault 26 (by omega), get?_eq_getD l lmDefault 27 (by omega),
    get?_eq_getD l lmDefault 28 (by omega)]
  rfl

/-- Two positions with equal components are equal. -/
lemma Vec3.ext_comp (a b : Vec3) (hx : a.x = b.x) (hy : a.y = b.y)
    (hz : a.z = b.z) : a = b := by
  cases a
  cases b
  simp_all

/-- Two keypoint sets with equal keypoints are equal. -/
lemma Pose.ext_fields (p q : Pose) (h1 : p.head = q.head) (h2 : p.neck = q.neck)
    (h3 : p.shoulderL = q.shoulderL) (h4 : p.shoulderR = q.shoulderR)
    (h5 : p.hipL = q.hipL) (h6 : p.hipR = q.hipR)
    (h7 : p.hipCenter = q.hipCenter) (h8 : p.elbowL = q.elbowL)
    (h9 : p.elbowR = q.elbowR) (h10 : p.wristL = q.wristL)
    (h11 : p.wristR = q.wristR) (h12 : p.kneeL = q.kneeL)
    (h13 : p.kneeR = q.kneeR) (h14 : p.ankleL = q.ankleL)
    (h15 : p.ankleR = q.ankleR) : p = q := by
  cases p
  cases q
  simp_all

/-- The equality guard of the smoothing step is redundant mathematically:
lerping a converged keypoint leaves it unchanged, so the step always equals
the plain lerp. -/
lemma stepKey_eq_lerp (c t : Vec3) : stepKey c t = c.lerp t (2/25) := by
  unfold stepKey
  split
  · next h =>
    subst h
    apply Vec3.ext_comp <;> simp [Vec3.lerp]
  · rfl

/-- One smoothing step advances the scalar closed form by one tick. -/
lemma stepKey_vecIter (c t : Vec3) (n : ℕ) :
    stepKey (vecIter n c t) t = vecIter (n + 1) c t := by
  rw [stepKey_eq_lerp]
  apply Vec3.ext_comp <;> (simp [Vec3.lerp, vecIter, lerpIter]; ring)

/-- Closed form of `n` pose smoothing ticks: every keypoint component
follows the scalar geometric decay toward its target component. -/
lemma advanceN_closed (cur tar : Pose) (n : ℕ) :
    advanceN n cur tar = {
      head := vecIter n cur.head tar.head
      neck := vecIter n cur.neck tar.neck
      shoulderL := vecIter n cur.shoulderL tar.shoulderL
      shoulderR := vecIter n cur.shoulderR tar.shoulderR
      hipL := vecIter n cur.hipL tar.hipL
      hipR := vecIter n cur.hipR tar.hipR
      hipCenter := vecIter n cur.hipCenter tar.hipCenter
      elbowL := vecIter n cur.elbowL tar.elbowL
      elbowR := vecIter n cur.elbowR tar.elbowR
      wristL := vecIter n cur.wristL tar.wristL
      wristR := vecIter n cur.wristR tar.wristR
      kneeL := vecIter n cur.kneeL tar.kneeL
      kneeR := vecIter n cur.kneeR tar.kneeR
      ankleL := vecIter n cur.ankleL tar.ankleL
      ankleR := vecIter n cur.ankleR tar.ankleR } := by
  induction n with
  | zero =>
    apply Pose.ext_fields <;>
      (apply Vec3.ext_comp <;> (simp [advanceN, vecIter, lerpIter]; try ring))
  | succ n ih =>
    have hstep : advanceN (n + 1) cur tar = advance (advanceN n cur tar) tar :=
      Function.iterate_succ_apply' _ _ _
    rw [hstep, ih]
    apply Pose.ext_fields <;> exact stepKey_vecIter _ _ _

/-- A lerp step at factor 0.08 stays between its endpoints. -/
lemma betweenQ_lerp (a b : ℚ) : betweenQ a b (a + (b - a) * (2/25)) := by
  unfold betweenQ
  rcases le_total a b with hab | hab
  · rw [min_eq_left hab, max_eq_right hab]
    constructor <;> nlinarith
  · rw [min_eq_right hab, max_eq_left hab]
    constructor <;> nlinarith

/-- A lerp step at factor 0.08 never increases the distance to the target. -/
lemma closer_lerp (a b : ℚ) : |b - (a + (b - a) * (2/25))| ≤ |b - a| := by
  have he : b - (a + (b - a) * (2/25)) = (b - a) * (23/25) := by ring
  rw [he, abs_mul]
  calc |b - a| * |(23/25 : ℚ)|
      ≤ |b - a| * 1 := by
        apply mul_le_mul_of_nonneg_left _ (abs_nonneg _)
        rw [abs_of_nonneg] <;> norm_num
    _ = |b - a| := mul_one _

/-- The per-keypoint smoothing step satisfies the monotone-step contract. -/
lemma stepKey_ok (c t : Vec3) : keypointStepOK c t (stepKey c t) := by
  unfold keypointStepOK
  by_cases hct : c = t
  · subst hct
    refine ⟨?_, ?_, fun _ => ?_⟩
    · unfold stepKey
      simp [vecBetween, betweenQ]
    · unfold stepKey
      simp [vecCloser]
    · simp [stepKey]
  · rw [stepKey_eq_lerp]
    refine ⟨⟨betweenQ_lerp _ _, betweenQ_lerp _ _, betweenQ_lerp _ _⟩,
      ⟨closer_lerp _ _, closer_lerp _ _, closer_lerp _ _⟩,
      fun h => absurd h hct⟩

/-- After 200 ticks at factor 0.08, a scalar residual of at most `10^4`
shrinks below the tolerance `10^-3`. -/
lemma close_after_200 (c t : ℚ) (h : |c - t| ≤ 10000) :
    |lerpIter 200 c t - t| ≤ 1/1000 := by
  have he : lerpIter 200 c t - t = (23/25) ^ 200 * (c - t) := by
    unfold lerpIter
    ring
  rw [he, abs_mul, abs_pow, abs_of_nonneg (by norm_num : (0:ℚ) ≤ 23/25)]
  calc (23/25 : ℚ) ^ 200 * |c - t|
      ≤ (23/25) ^ 200 * 10000 := by
        apply mul_le_mul_of_nonneg_left h (by positivity)
    _ ≤ 1/1000 := by norm_num

/-- Componentwise version of `close_after_200`. -/
lemma vclose_after_200 (c t : Vec3) (h : vclose 10000 c t) :
    vclose (1/1000) (vecIter 200 c t) t :=
  ⟨close_after_200 _ _ h.1, close_after_200 _ _ h.2.1,
    close_after_200 _ _ h.2.2⟩

/-! ## C10 — updatePose before initialization is a safe no-op -/

/-- C10: when no target keypoint set exists (engine uninitialized or torn
down), `updatePose` returns without error and leaves the state unchanged,
for every landmark argument. -/
theorem updatePose_uninitialized_noop (landmarks : Option (List PoseLandmark))
    (st : ThreeState) (h : st.targetPoints = none) :
    updatePose landmarks st = .ok st := by
  unfold updatePose
  rw [h]

/-- C10 witness: the empty (torn-down) state with a concrete non-empty
landmark list. -/
theorem updatePose_uninitialized_noop_witness :
    emptyThreeState.targetPoints = none ∧
      updatePose (some [⟨1, 2, 3⟩]) emptyThreeState = .ok emptyThreeState :=
  ⟨rfl, updatePose_uninitialized_noop (some [⟨1, 2, 3⟩]) emptyThreeState rfl⟩

/-! ## C6 — detection failure resets the smoother target to the default pose -/

/-- C6: on an initialized engine with any prior target, feeding the
"no pose" signal (`null` landmarks) replaces the smoother's target
wholesale by the Default Pose Provider's output. -/
theorem updatePose_failure_resets_target (st : ThreeState) (p : Pose)
    (h : st.targetPoints = some p) :
    updatePose none st = .ok { st with targetPoints := some createDefaultPose } := by
  unfold updatePose
  rw [h]

/-- C6 witness: a state whose active target is the pose mapped from live
landmarks; the "no pose" signal installs the default pose. -/
theorem updatePose_failure_resets_target_witness :
    ({ activeState with targetPoints := some mappedBadPose } : ThreeState).targetPoints
        = some mappedBadPose ∧
      updatePose none { activeState with targetPoints := some mappedBadPose } =
        .ok { activeState with targetPoints := some createDefaultPose } :=
  ⟨rfl,
    updatePose_failure_resets_target
      { activeState with targetPoints := some mappedBadPose } mappedBadPose rfl⟩

/-! ## C7 — snapshot restores the background and fails outside Active -/

/-- C7: `captureCanvas` leaves the renderer's clear color and clear alpha
exactly as they were before the call (the opaque background is only a
temporary override), and returns `null` instead of an image whenever the
engine is not active (renderer, scene or camera missing). -/
theorem captureCanvas_restores_background (st : ThreeState) :
    ((captureCanvas st).2.renderer).map Renderer.clearColor =
        st.renderer.map Renderer.clearColor ∧
      ((captureCanvas st).2.renderer).map Renderer.clearAlpha =
        st.renderer.map Renderer.clearAlpha ∧
      ((st.renderer = none ∨ st.scene = none ∨ st.camera = none) →
        (captureCanvas st).1 = none) := by
  obtain ⟨r, s, c, a, cp, tp⟩ := st
  cases r <;> cases s <;> cases c <;> simp [captureCanvas]

/-- C7 witness: on the torn-down state the engine is not active, and the
capture indeed signals failure. -/
theorem captureCanvas_restores_background_witness :
    (emptyThreeState.renderer = none ∨ emptyThreeState.scene = none ∨
        emptyThreeState.camera = none) ∧
      (captureCanvas emptyThreeState).1 = none :=
  ⟨Or.inl rfl,
    (captureCanvas_restores_background emptyThreeState).2.2 (Or.inl rfl)⟩

/-! ## C8 — dispose is idempotent -/

/-- C8: running the teardown a second time after a completed first
teardown yields the same (empty) engine state, and the second run's only
action is removing the resize listener — in particular no geometry,
material or renderer is released twice and no exception occurs. -/
theorem dispose_idempotent (st : ThreeState) :
    (dispose (dispose st).1).1 = (dispose st).1 ∧
      (dispose (dispose st).1).2 = [DisposeAction.removeResizeListener] :=
  ⟨rfl, rfl⟩


/-! ## C4 — which segments the torso part owns -/

/-- C4 counterexample: at the default pose, the torso part's segment list
is not the claimed four segments head–neck, neck–shoulderL,
neck–shoulderR, neck–hipCenter. -/
theorem torso_four_segments_counterexample :
    segmentPairs (connections createDefaultPose).torso ≠
      [(createDefaultPose.head, createDefaultPose.neck),
        (createDefaultPose.neck, createDefaultPose.shoulderL),
        (createDefaultPose.neck, createDefaultPose.shoulderR),
        (createDefaultPose.neck, createDefaultPose.hipCenter)] := by
  intro h
  have hlen := congrArg List.length h
  simp [connections, segmentPairs] at hlen

/-- C4 amended: the torso part owns exactly the two segments head–neck and
neck–hipCenter; the neck–shoulder segments open the arm parts instead
(armL begins with neck–shoulderL, armR with neck–shoulderR), and each
body-part label owns its own segment list. -/
theorem body_part_segments (p : Pose) :
    segmentPairs (connections p).torso = [(p.head, p.neck), (p.neck, p.hipCenter)] ∧
      segmentPairs (connections p).armL =
        [(p.neck, p.shoulderL), (p.shoulderL, p.elbowL), (p.elbowL, p.wristL)] ∧
      segmentPairs (connections p).armR =
        [(p.neck, p.shoulderR), (p.shoulderR, p.elbowR), (p.elbowR, p.wristR)] ∧
      segmentPairs (connections p).legL =
        [(p.hipCenter, p.hipL), (p.hipL, p.kneeL), (p.kneeL, p.ankleL)] ∧
      segmentPairs (connections p).legR =
        [(p.hipCenter, p.hipR), (p.hipR, p.kneeR), (p.kneeR, p.ankleR)] :=
  ⟨rfl, rfl, rfl, rfl, rfl⟩

/-! ## C3 — control inputs are not clamped by the core -/

/-- C3 counterexample: setting yaw to `2π` through `updateControls` stores
`2π` itself, which lies outside `[-π, π]` — no clamp is applied before the
value becomes the smoother's target. -/
theorem updateControls_no_clamp_counterexample :
    (updateControls ⟨2 * Real.pi, 0, 1⟩ initialCanvasState).controls.rotationY ∉
      Set.Icc (-Real.pi) Real.pi := by
  intro h
  have h2 : (2 : ℝ) * Real.pi ≤ Real.pi := h.2
  nlinarith [Real.pi_pos]

/-- C3 amended: `updateControls` performs no clamping at all — the
supplied control values are stored verbatim as the smoother's target
(range enforcement is left to the slider UI's min/max attributes). -/
theorem updateControls_stores_verbatim (c : Controls) (st : CanvasState) :
    (updateControls c st).controls = c :=
  rfl

/-! ## C1 — where the 33-landmark length check lives -/

/-- C1 counterexample: a non-empty sample of length 34 ≠ 33 passed to the
pose-update operation on an initialized engine does install a keypoint set
built from that array (not the "no pose" default). -/
theorem updatePose_length_check_counterexample :
    badSample ≠ [] ∧ badSample.length ≠ 33 ∧
      updatePose (some badSample) activeState =
        .ok { activeState with targetPoints := some mappedBadPose } ∧
      mappedBadPose ≠ createDefaultPose := by
  have hm : mapLandmarks badSample = some mappedBadPose := by
    rw [mapLandmarks_of_length badSample (by simp [badSample])]
    rw [show badSample.getD 0 lmDefault = ⟨1, 1, 1⟩ from rfl,
      show badSample.getD 11 lmDefault = ⟨1, 1, 1⟩ from rfl,
      show badSample.getD 12 lmDefault = ⟨1, 1, 1⟩ from rfl,
      show badSample.getD 13 lmDefault = ⟨1, 1, 1⟩ from rfl,
      show badSample.getD 14 lmDefault = ⟨1, 1, 1⟩ from rfl,
      show badSample.getD 15 lmDefault = ⟨1, 1, 1⟩ from rfl,
      show badSample.getD 16 lmDefault = ⟨1, 1, 1⟩ from rfl,
      show badSample.getD 23 lmDefault = ⟨1, 1, 1⟩ from rfl,
      show badSample.getD 24 lmDefault = ⟨1, 1, 1⟩ from rfl,
      show badSample.getD 25 lmDefault = ⟨1, 1, 1⟩ from rfl,
      show badSample.getD 26 lmDefault = ⟨1, 1, 1⟩ from rfl,
      show badSample.getD 27 lmDefault = ⟨1, 1, 1⟩ from rfl,
      show badSample.getD 28 lmDefault = ⟨1, 1, 1⟩ from rfl]
    norm_num [toVec3, Vec3.lerp, POSE_SCALE, mappedBadPose, Pose.mk.injEq,
      Vec3.mk.injEq]
  refine ⟨by simp [badSample], by simp [badSample], ?_, ?_⟩
  · unfold updatePose
    have hlen : 0 < badSample.length := by simp [badSample]
    simp [hm, hlen]
    rfl
  · norm_num [mappedBadPose, createDefaultPose, Pose.mk.injEq, Vec3.mk.injEq]

/-- C1 amended: the 33-entry validation is enforced at the detector result
handler, which forwards the "no pose" signal (`null`) for every sample
whose length is not exactly 33; the pose-update operation itself treats
only absent or empty samples as "no pose" (installing the default pose)
and builds a keypoint set from any non-empty sample it receives. -/
theorem length_check_at_detector_boundary :
    (∀ l : List PoseLandmark, l.length ≠ 33 → onResultsForward (some l) = none) ∧
      (∀ st : ThreeState, ∀ p : Pose, st.targetPoints = some p →
        updatePose none st = .ok { st with targetPoints := some createDefaultPose } ∧
          updatePose (some []) st =
            .ok { st with targetPoints := some createDefaultPose }) := by
  constructor
  · intro l h
    simp [onResultsForward, h]
  · intro st p h
    unfold updatePose
    rw [h]
    exact ⟨rfl, rfl⟩

/-- C1 witness: the empty sample is filtered to "no pose" by the detector
handler, and on an initialized engine the "no pose" signal installs the
default pose. -/
theorem length_check_at_detector_boundary_witness :
    (([] : List PoseLandmark).length ≠ 33 ∧
        onResultsForward (some ([] : List PoseLandmark)) = none) ∧
      (activeState.targetPoints = some createDefaultPose ∧
        updatePose none activeState =
          .ok { activeState with targetPoints := some createDefaultPose }) :=
  ⟨⟨by decide, length_check_at_detector_boundary.1 [] (by decide)⟩,
    ⟨rfl,
      (length_check_at_detector_boundary.2 activeState createDefaultPose rfl).1⟩⟩

/-! ## C2 — coordinate transform and midpoint-derived keypoints -/

/-- C2: on every valid 33-entry sample, the mapper sends each used source
position `(x, y, z)` to `(x·2.5, −y·2.5, −z·2.5)` (spelled out on the head
and, through `toVec3`, on every other used index), and the derived
keypoints are exact midpoints of the mapped positions:
`neck = midpoint(shoulderL, shoulderR)`, `hipCenter = midpoint(hipL, hipR)`. -/
theorem mapper_coordinates (l : List PoseLandmark) (h : l.length = 33) :
    mapLandmarks l = some {
      head := ⟨(l.getD 0 lmDefault).x * (5/2), -((l.getD 0 lmDefault).y * (5/2)),
        -((l.getD 0 lmDefault).z * (5/2))⟩
      neck := midpointV (toVec3 (l.getD 11 lmDefault)) (toVec3 (l.getD 12 lmDefault))
      shoulderL := toVec3 (l.getD 11 lmDefault)
      shoulderR := toVec3 (l.getD 12 lmDefault)
      hipL := toVec3 (l.getD 23 lmDefault)
      hipR := toVec3 (l.getD 24 lmDefault)
      hipCenter := midpointV (toVec3 (l.getD 23 lmDefault)) (toVec3 (l.getD 24 lmDefault))
      elbowL := toVec3 (l.getD 13 lmDefault)
      elbowR := toVec3 (l.getD 14 lmDefault)
      wristL := toVec3 (l.getD 15 lmDefault)
      wristR := toVec3 (l.getD 16 lmDefault)
      kneeL := toVec3 (l.getD 25 lmDefault)
      kneeR := toVec3 (l.getD 26 lmDefault)
      ankleL := toVec3 (l.getD 27 lmDefault)
      ankleR := toVec3 (l.getD 28 lmDefault) } ∧
      ∀ p : PoseLandmark,
        toVec3 p = ⟨p.x * (5/2), -(p.y * (5/2)), -(p.z * (5/2))⟩ := by
  constructor
  · rw [mapLandmarks_of_length l (by omega)]
    simp only [Option.some.injEq]
    apply Pose.ext_fields <;>
      (apply Vec3.ext_comp <;>
        (simp [toVec3, POSE_SCALE, Vec3.lerp, midpointV]; try ring))
  · intro p
    apply Vec3.ext_comp <;> simp [toVec3, POSE_SCALE]

/-- C2 witness: the concrete valid 33-entry sample. -/
theorem mapper_coordinates_witness :
    sample33.length = 33 ∧
      (mapLandmarks sample33 = some {
        head := ⟨(sample33.getD 0 lmDefault).x * (5/2),
          -((sample33.getD 0 lmDefault).y * (5/2)),
          -((sample33.getD 0 lmDefault).z * (5/2))⟩
        neck := midpointV (toVec3 (sample33.getD 11 lmDefault))
          (toVec3 (sample33.getD 12 lmDefault))
        shoulderL := toVec3 (sample33.getD 11 lmDefault)
        shoulderR := toVec3 (sample33.getD 12 lmDefault)
        hipL := toVec3 (sample33.getD 23 lmDefault)
        hipR := toVec3 (sample33.getD 24 lmDefault)
        hipCenter := midpointV (toVec3 (sample33.getD 23 lmDefault))
          (toVec3 (sample33.getD 24 lmDefault))
        elbowL := toVec3 (sample33.getD 13 lmDefault)
        elbowR := toVec3 (sample33.getD 14 lmDefault)
        wristL := toVec3 (sample33.getD 15 lmDefault)
        wristR := toVec3 (sample33.getD 16 lmDefault)
        kneeL := toVec3 (sample33.getD 25 lmDefault)
        kneeR := toVec3 (sample33.getD 26 lmDefault)
        ankleL := toVec3 (sample33.getD 27 lmDefault)
        ankleR := toVec3 (sample33.getD 28 lmDefault) } ∧
        ∀ p : PoseLandmark,
          toVec3 p = ⟨p.x * (5/2), -(p.y * (5/2)), -(p.z * (5/2))⟩) :=
  ⟨rfl, mapper_coordinates sample33 rfl⟩

/-! ## C9 — each tick moves current monotonically toward target -/

/-- C9: one tick of the pose smoothing loop at factor 0.08 keeps every
component of every keypoint between its previous value and the target's
component (so the per-component distance to the target never increases),
and leaves a keypoint whose current value already equals its target
exactly unchanged. -/
theorem advance_monotone (cur tar : Pose) :
    keypointStepOK cur.head tar.head (advance cur tar).head ∧
      keypointStepOK cur.neck tar.neck (advance cur tar).neck ∧
      keypointStepOK cur.shoulderL tar.shoulderL (advance cur tar).shoulderL ∧
      keypointStepOK cur.shoulderR tar.shoulderR (advance cur tar).shoulderR ∧
      keypointStepOK cur.hipL tar.hipL (advance cur tar).hipL ∧
      keypointStepOK cur.hipR tar.hipR (advance cur tar).hipR ∧
      keypointStepOK cur.hipCenter tar.hipCenter (advance cur tar).hipCenter ∧
      keypointStepOK cur.elbowL tar.elbowL (advance cur tar).elbowL ∧
      keypointStepOK cur.elbowR tar.elbowR (advance cur tar).elbowR ∧
      keypointStepOK cur.wristL tar.wristL (advance cur tar).wristL ∧
      keypointStepOK cur.wristR tar.wristR (advance cur tar).wristR ∧
      keypointStepOK cur.kneeL tar.kneeL (advance cur tar).kneeL ∧
      keypointStepOK cur.kneeR tar.kneeR (advance cur tar).kneeR ∧
      keypointStepOK cur.ankleL tar.ankleL (advance cur tar).ankleL ∧
      keypointStepOK cur.ankleR tar.ankleR (advance cur tar).ankleR :=
  ⟨stepKey_ok _ _, stepKey_ok _ _, stepKey_ok _ _, stepKey_ok _ _,
    stepKey_ok _ _, stepKey_ok _ _, stepKey_ok _ _, stepKey_ok _ _,
    stepKey_ok _ _, stepKey_ok _ _, stepKey_ok _ _, stepKey_ok _ _,
    stepKey_ok _ _, stepKey_ok _ _, stepKey_ok _ _⟩

/-- C9 witness: the monotone-step contract instantiated at a concrete
current/target pair, with the already-converged clause discharged at a
pair of equal keypoints. -/
theorem advance_monotone_witness :
    createDefaultPose.neck = createDefaultPose.neck ∧
      (advance createDefaultPose mappedBadPose).neck =
        stepKey createDefaultPose.neck mappedBadPose.neck ∧
      keypointStepOK createDefaultPose.head mappedBadPose.head
        (advance createDefaultPose mappedBadPose).head ∧
      (advance createDefaultPose createDefaultPose).head =
        createDefaultPose.head :=
  ⟨rfl, rfl, (advance_monotone createDefaultPose mappedBadPose).1,
    ((advance_monotone createDefaultPose createDefaultPose).1).2.2 rfl⟩

/-! ## C5 — convergence after 200 ticks -/

/-- C5 counterexample: from a starting configuration far enough away
(head at `x = 100000`), 200 ticks at factor 0.08 do *not* bring every
component within `10^-3` of the target — the residual is
`0.92^200 · 100000 ≈ 5.8·10^-3`.  The claim fails as stated for "any
starting configuration". -/
theorem convergence_200_counterexample :
    ¬ pclose (1/1000) (advanceN 200 farStartPose createDefaultPose)
      createDefaultPose := by
  rw [advanceN_closed]
  intro h
  have hx := h.1.1
  norm_num [vecIter, lerpIter, farStartPose, createDefaultPose, abs_le] at hx

/-- C5 amended: for every target and every starting configuration whose
keypoints start within `10^4` of the target componentwise, 200 advance
ticks at factor 0.08 with no intervening setTarget bring every component
of every keypoint within tolerance `10^-3` of the target. -/
theorem convergence_200_bounded (cur tar : Pose)
    (h : pclose 10000 cur tar) :
    pclose (1/1000) (advanceN 200 cur tar) tar := by
  rw [advanceN_closed]
  exact ⟨vclose_after_200 _ _ h.1, vclose_after_200 _ _ h.2.1,
    vclose_after_200 _ _ h.2.2.1, vclose_after_200 _ _ h.2.2.2.1,
    vclose_after_200 _ _ h.2.2.2.2.1, vclose_after_200 _ _ h.2.2.2.2.2.1,
    vclose_after_200 _ _ h.2.2.2.2.2.2.1,
    vclose_after_200 _ _ h.2.2.2.2.2.2.2.1,
    vclose_after_200 _ _ h.2.2.2.2.2.2.2.2.1,
    vclose_after_200 _ _ h.2.2.2.2.2.2.2.2.2.1,
    vclose_after_200 _ _ h.2.2.2.2.2.2.2.2.2.2.1,
    vclose_after_200 _ _ h.2.2.2.2.2.2.2.2.2.2.2.1,
    vclose_after_200 _ _ h.2.2.2.2.2.2.2.2.2.2.2.2.1,
    vclose_after_200 _ _ h.2.2.2.2.2.2.2.2.2.2.2.2.2.1,
    vclose_after_200 _ _ h.2.2.2.2.2.2.2.2.2.2.2.2.2.2⟩

/-- C5 witness: starting at the default pose with the live-mapped target
`mappedBadPose` (all initial residuals at most 3.6), 200 ticks converge
within `10^-3`. -/
theorem convergence_200_bounded_witness :
    pclose 10000 createDefaultPose mappedBadPose ∧
      pclose (1/1000) (advanceN 200 createDefaultPose mappedBadPose)
        mappedBadPose := by
  have h : pclose 10000 createDefaultPose mappedBadPose := by
    norm_num [pclose, vclose, createDefaultPose, mappedBadPose, abs_le]
  exact ⟨h, convergence_200_bounded createDefaultPose mappedBadPose h⟩

end Exoskeleton
